import Mathlib

/-!
Verification of `src/data_loader.py` from governance_scoring_proj.

Shallow embedding conventions:
* Python exceptions are modelled by the inductive `PyExn`; a function that can
  raise returns `... × Except PyExn α`.  A `try/except` block is translated by
  matching on the fallible step and taking the handler branch exactly when the
  raised exception is of a type named in the `except` clause; exceptions raised
  outside every `try` block propagate as an `Except.error` result.
* `print` calls are collected into a `List String` of log lines, in order.
* The filesystem is a map from path to file content; writes are overwrites.
* Network, zip and XML behaviour is supplied by a `FetchWorld`; the behaviour
  of `os.makedirs` / `DataFrame.to_csv` by a `SaveWorld`.
* `pandas` dataframes are lists of records; a dataframe handed to
  `save_df_to_csv` is abstracted by `PandasDF`, its `to_csv` rendering as a
  function of the `index` flag plus its row count.

A note on stage 2.  The committed `get_kospi_company_info` (lines 115-161)
contains a syntax error: at line 147 the dict literal entry
`'ir_url': info.get('ir_url')` is immediately followed on the next line by the
`'corp_reg_number'` key with no separating comma.  Implicit string
concatenation joins only adjacent string literals, so a call expression
followed by a string literal does not parse; Python compiles the whole module
at import time, hence `import data_loader` raises `SyntaxError` and the
enricher is never defined and has no behaviour.  Stage 2 is therefore not
embedded here: any statement about it would be about repaired code, not about
the committed program.
-/

/-- Python exceptions relevant to `data_loader.py`. -/
inductive PyExn where
  | requestException (msg : String)
  | badZipFile
  | xmlParseError (msg : String)
  | fileNotFoundError (msg : String)
  | osError (msg : String)
  | keyError (member : String)
deriving Repr, DecidableEq

/-- A filesystem: path ↦ file content (if the file exists). -/
def FS : Type := String → Option String

/-- Writing a file: a pure overwrite at the given path. -/
def FS.write (fs : FS) (p c : String) : FS := fun q => if q = p then some c else fs q

/-- The empty filesystem. -/
def emptyFS : FS := fun _ => none

/-- A pandas DataFrame as observed by `save_df_to_csv`: its `to_csv` rendering
(as a function of the `index` flag) and its row count (`len(df)`). -/
structure PandasDF where
  render : Bool → String
  nrows : Nat

/-- Index of the last occurrence of a character in a list, if any. -/
def lastIdxOf (c : Char) : List Char → Option Nat
  | [] => none
  | a :: as =>
    match lastIdxOf c as with
    | some i => some (i + 1)
    | none => if a = c then some 0 else none

/-- Drop trailing occurrences of a character. -/
def dropTrailing (c : Char) (l : List Char) : List Char :=
  (l.reverse.dropWhile (fun a => a = c)).reverse

/-- `os.path.dirname` (POSIX): everything before the last slash; the all-slash
head is kept as is, otherwise trailing slashes are stripped; `""` when the path
has no slash. -/
def pyDirname (p : String) : String :=
  let cs := p.data
  match lastIdxOf '/' cs with
  | none => ""
  | some i =>
    let head := cs.take (i + 1)
    if head.all (fun a => a = '/') then String.mk head
    else String.mk (dropTrailing '/' head)

/-- Environment for `save_df_to_csv`: how `os.makedirs(d, exist_ok=True)`
behaves on a nonempty directory `d`, and how `df.to_csv` behaves. -/
structure SaveWorld where
  makedirs : String → Except String Unit
  toCsv : Except String Unit

/-- A `SaveWorld` in which directory creation and the CSV write succeed. -/
def okSaveWorld : SaveWorld := ⟨fun _ => Except.ok (), Except.ok ()⟩

/-- Message of the `FileNotFoundError` raised by `os.makedirs("")`.
(CPython raises FileNotFoundError errno 2 on an empty path name.) -/
def fnfMsg : String := "No such file or directory (errno 2): empty path"

/-- The diagnostic printed by the `except` clause of `save_df_to_csv`. -/
def saveErrMsg (p e : String) : String := s!"Error saving DataFrame to CSV {p}: {e}"

/-- `save_df_to_csv(df, file_path, index)` (src/data_loader.py lines 163-173).
`os.makedirs(os.path.dirname(file_path), exist_ok=True)` runs OUTSIDE the
`try`, so its exceptions propagate; `df.to_csv(file_path, index=index)` runs
inside `try/except Exception`, so any write failure is turned into a printed
diagnostic.  The source default is `index = False`; the one reachable call
site in the source uses that default, which we pass explicitly. -/
def save_df_to_csv (w : SaveWorld) (fs : FS) (df : PandasDF) (file_path : String)
    (index : Bool) : FS × List String × Except PyExn Unit :=
  let d := pyDirname file_path
  if d = "" then
    (fs, [], Except.error (PyExn.fileNotFoundError fnfMsg))
  else
    match w.makedirs d with
    | Except.error m => (fs, [], Except.error (PyExn.osError m))
    | Except.ok _ =>
      match w.toCsv with
      | Except.ok _ => (fs.write file_path (df.render index), [], Except.ok ())
      | Except.error e => (fs, [saveErrMsg file_path e], Except.ok ())

/-! ### Stage 1: `get_listed_corp_codes` -/

/-- One `<list>` element of the parsed `CORPCODE.xml`; `findtext` returns the
element text or `None`, hence `Option String` fields. -/
structure XmlCorpRecord where
  corp_code : Option String
  corp_name : Option String
  corp_eng_name : Option String
  stock_code : Option String
deriving Repr, DecidableEq

/-- A row of the filtered corp-codes table (the dict appended at
src/data_loader.py lines 101-106); `stock_code` is the non-null ticker that
passed the filter. -/
structure CorpCodeRow where
  corp_code : Option String
  corp_name : Option String
  corp_eng_name : Option String
  stock_code : String
deriving Repr, DecidableEq

/-- The loop body of lines 98-106: `if stock_code and len(stock_code) == 6:
corp_list.append({...})` — Python truthiness of a string is `len != 0`. -/
def filterCorpsStep (acc : List CorpCodeRow) (corp : XmlCorpRecord) : List CorpCodeRow :=
  match corp.stock_code with
  | some s =>
    if (s.length != 0) && (s.length == 6) then
      acc ++ [⟨corp.corp_code, corp.corp_name, corp.corp_eng_name, s⟩]
    else acc
  | none => acc

/-- The `for corp in root.findall('list')` loop (lines 97-106) building
`corp_list`. -/
def filterCorps (records : List XmlCorpRecord) : List CorpCodeRow :=
  records.foldl filterCorpsStep []

/-- Specification-side predicate (spec §8: "retained if and only if its ticker
field is present and has exactly 6 characters"). -/
def specTickerKeep (c : XmlCorpRecord) : Bool :=
  match c.stock_code with
  | some s => s.length == 6
  | none => false

/-- The row built from a record that passes the filter. -/
def mkCorpRow (c : XmlCorpRecord) : CorpCodeRow :=
  ⟨c.corp_code, c.corp_name, c.corp_eng_name, c.stock_code.getD ""⟩

/-- Pandas-style CSV cell: `None`/NaN renders as the empty string. -/
def csvCell : Option String → String
  | none => ""
  | some s => s

/-- Deterministic rendering of the corp-codes table as `to_csv(index = b)`
produces it: header row, one comma-separated line per record, no index column
when `b = false`.  (Abstracts pandas quoting, which is itself a deterministic
function of the cells.) -/
def renderCorpCsv (rows : List CorpCodeRow) (index : Bool) : String :=
  let header := "corp_code,corp_name,corp_eng_name,stock_code"
  let body := rows.enum.map (fun ir =>
    (if index then toString ir.1 ++ "," else "") ++
      csvCell ir.2.corp_code ++ "," ++ csvCell ir.2.corp_name ++ "," ++
      csvCell ir.2.corp_eng_name ++ "," ++ ir.2.stock_code)
  String.intercalate "\n" (((if index then "," else "") ++ header) :: body) ++ "\n"

/-- The corp-codes table as a `PandasDF`. -/
def corpDF (rows : List CorpCodeRow) : PandasDF := ⟨renderCorpCsv rows, rows.length⟩

/-- Fixed paths (constants of the source; `os.path.join` with `/`). -/
def xmlZipPath : String := "data/raw/dart_corp_data/CORPCODE.zip"

/-- Path of the extracted XML document. -/
def xmlPath : String := "data/raw/dart_corp_data/CORPCODE.xml"

/-- Path of the filtered corp-codes CSV. -/
def corpCsvPath : String := "data/raw/listed_corp_codes.csv"

/-- Outcome of `with zipfile.ZipFile(...) as z: z.extract('CORPCODE.xml', ...)`
(lines 80-81) on given archive bytes:
* `badZip` — `zipfile.BadZipFile`, the one exception type the surrounding
  `except` clause (line 83) catches;
* `missingMember` — a VALID zip that lacks a `CORPCODE.xml` member, on which
  `z.extract` raises `KeyError`, which line 83 does not catch;
* `extracted xml` — success, with the extracted document text. -/
inductive ZipOutcome where
  | badZip
  | missingMember
  | extracted (xml : String)
deriving Repr, DecidableEq

/-- Environment of one fetcher run.
* `httpResult` — `requests.get(url, stream=True)` + `raise_for_status`
  (lines 61-62); with `stream=True` this covers connection setup and the
  response status only, and its `RequestException` errors are caught at
  line 63.
* `rawWrite` — the unguarded block of lines 67-76: `os.makedirs`, `open`, and
  the `iter_content` body download.  No `try` covers these lines, so an
  `OSError` from the directory/file operations or a `RequestException` from a
  mid-stream network failure propagates out of the function; on success it
  yields the downloaded archive bytes.
* `unzip` — the extraction outcome as a function of the archive bytes.
* `parseXml` — `ET.parse` as a function of the document text: the `<list>`
  records, or an `ET.ParseError` message (caught at line 92).
* `saveWorld` — the environment of the `save_df_to_csv` call at line 110
  (whose own `os.makedirs` is unguarded and can raise out of the fetcher). -/
structure FetchWorld where
  httpResult : Except String Unit
  rawWrite : Except PyExn String
  unzip : String → ZipOutcome
  parseXml : String → Except String (List XmlCorpRecord)
  saveWorld : SaveWorld

/-- `print` at line 58. -/
def fetchingMsg : String := "Fetching all corporation codes from OpenDART..."

/-- Diagnostic of the `except requests.exceptions.RequestException` clause. -/
def fetchErrMsg (e : String) : String := s!"Error fetching corporation codes: {e}"

/-- Diagnostic of the `except zipfile.BadZipFile` clause. -/
def zipErrMsg : String :=
  "Error: Downloaded file is not a valid zip file. Check API key or response content."

/-- `print` after successful extraction (line 82). -/
def extractedMsg : String := s!"CORPCODE.xml extracted to {xmlPath}"

/-- Diagnostic of the `except ET.ParseError` clause. -/
def parseErrMsg (e : String) : String := s!"Error parsing CORPCODE.xml: {e}"

/-- Final `print` of the fetcher (line 111). -/
def fetchSavedMsg (n : Nat) : String :=
  s!"Saved {n} listed corporation codes to {corpCsvPath}"

/-- `get_listed_corp_codes` (src/data_loader.py lines 44-112) as a function of
the environment and the incoming filesystem.  Each `except` clause of the
source corresponds to one handled branch returning `Except.ok []` (the empty
DataFrame); every exception raised outside the three guarded statements —
the body download (`rawWrite`), the `KeyError` of a missing zip member, and a
failure inside the final `save_df_to_csv` call's unguarded `os.makedirs` —
propagates as an `Except.error` result. -/
def get_listed_corp_codes (w : FetchWorld) (fs : FS) :
    FS × List String × Except PyExn (List CorpCodeRow) :=
  match w.httpResult with
  | Except.error e => (fs, [fetchingMsg, fetchErrMsg e], Except.ok [])
  | Except.ok _ =>
    match w.rawWrite with
    | Except.error ex => (fs, [fetchingMsg], Except.error ex)
    | Except.ok bs =>
      let fs1 := fs.write xmlZipPath bs
      match w.unzip bs with
      | ZipOutcome.badZip => (fs1, [fetchingMsg, zipErrMsg], Except.ok [])
      | ZipOutcome.missingMember =>
        (fs1, [fetchingMsg], Except.error (PyExn.keyError "CORPCODE.xml"))
      | ZipOutcome.extracted xml =>
        let fs2 := fs1.write xmlPath xml
        match w.parseXml xml with
        | Except.error e =>
          (fs2, [fetchingMsg, extractedMsg, parseErrMsg e], Except.ok [])
        | Except.ok records =>
          let table := filterCorps records
          match save_df_to_csv w.saveWorld fs2 (corpDF table) corpCsvPath false with
          | (fs3, slogs, Except.ok _) =>
            (fs3, [fetchingMsg, extractedMsg] ++ slogs ++ [fetchSavedMsg table.length],
              Except.ok table)
          | (fs3, slogs, Except.error err) =>
            (fs3, [fetchingMsg, extractedMsg] ++ slogs, Except.error err)

/-! ### Concrete fixtures used to instantiate the theorems -/

/-- A world whose initial HTTP request fails with a network error. -/
def wNetFail : FetchWorld :=
  ⟨Except.error "connection refused", Except.error (PyExn.requestException "unused"),
    fun _ => ZipOutcome.badZip, fun _ => Except.error "unused", okSaveWorld⟩

/-- A world whose request succeeds but whose streamed body download fails
mid-transfer, inside the unguarded `iter_content` loop. -/
def wMidStream : FetchWorld :=
  ⟨Except.ok (),
    Except.error (PyExn.requestException "connection reset during body download"),
    fun _ => ZipOutcome.badZip, fun _ => Except.error "unused", okSaveWorld⟩

/-- A world that downloads a valid archive which lacks a `CORPCODE.xml`
member, so `z.extract` raises `KeyError`. -/
def wMissingMember : FetchWorld :=
  ⟨Except.ok (), Except.ok "archive bytes", fun _ => ZipOutcome.missingMember,
    fun _ => Except.error "unused", okSaveWorld⟩

/-! ### Helper lemmas -/

/-- Evaluating the persistence call the fetcher makes: the CSV path has the
nonempty directory component `data/raw`, so the outcome is decided by the
save environment. -/
lemma save_at_corpCsv (sw : SaveWorld) (fs : FS) (df : PandasDF) :
    save_df_to_csv sw fs df corpCsvPath false =
      (match sw.makedirs "data/raw" with
        | Except.error m => (fs, [], Except.error (PyExn.osError m))
        | Except.ok _ =>
          match sw.toCsv with
          | Except.ok _ => (fs.write corpCsvPath (df.render false), [], Except.ok ())
          | Except.error e => (fs, [saveErrMsg corpCsvPath e], Except.ok ())) := rfl

lemma corpCsv_ne_zip : corpCsvPath ≠ xmlZipPath := by decide

lemma corpCsv_ne_xml : corpCsvPath ≠ xmlPath := by decide

/-- Unrolling the corp-codes filter loop. -/
lemma filterCorps_foldl (records : List XmlCorpRecord) (acc : List CorpCodeRow) :
    records.foldl filterCorpsStep acc =
      acc ++ (records.filter specTickerKeep).map mkCorpRow := by
  induction records generalizing acc with
  | nil => simp
  | cons c cs ih =>
    rw [List.foldl_cons, ih, List.filter_cons]
    cases hsc : c.stock_code with
    | none =>
      have hk : specTickerKeep c = false := by simp [specTickerKeep, hsc]
      simp [filterCorpsStep, hsc, hk]
    | some s =>
      by_cases h6 : s.length = 6
      · have hk : specTickerKeep c = true := by simp [specTickerKeep, hsc, h6]
        have hrow : mkCorpRow c = ⟨c.corp_code, c.corp_name, c.corp_eng_name, s⟩ := by
          simp [mkCorpRow, hsc]
        simp [filterCorpsStep, hsc, h6, hk, hrow]
      · have hk : specTickerKeep c = false := by simp [specTickerKeep, hsc, h6]
        simp [filterCorpsStep, hsc, h6, hk]

/-! ### Claim theorems -/

/-- C1 counterexample: `get_listed_corp_codes` CAN raise past its own
boundary.  A mid-stream network failure during the body download (which runs
outside the `try` guarding the request) escapes as a `RequestException`, and a
valid archive lacking the `CORPCODE.xml` member makes `z.extract` raise a
`KeyError` that the `except zipfile.BadZipFile` clause does not catch. -/
theorem fetcher_never_raises_cex :
    (get_listed_corp_codes wMidStream emptyFS).2.2 =
      Except.error (PyExn.requestException "connection reset during body download")
  ∧ (get_listed_corp_codes wMissingMember emptyFS).2.2 =
      Except.error (PyExn.keyError "CORPCODE.xml") :=
  ⟨rfl, rfl⟩

/-- C1 amended: each of the three guarded failure modes — a network/HTTP
error raised by the initial request or status check, a `BadZipFile` error,
and an XML parse error — is caught inside the function, prints its
diagnostic, and yields the empty table; but exceptions raised outside the
guards escape: a failure in the unguarded download/write block propagates
as raised, a missing `CORPCODE.xml` member propagates as a `KeyError`, and a
directory-creation failure inside the final save call propagates as an
`OSError`. -/
theorem fetcher_failure_handling_amended (w : FetchWorld) (fs : FS) :
    (∀ e, w.httpResult = Except.error e →
      (get_listed_corp_codes w fs).2.2 = Except.ok [] ∧
        fetchErrMsg e ∈ (get_listed_corp_codes w fs).2.1)
  ∧ (∀ bs, w.httpResult = Except.ok () → w.rawWrite = Except.ok bs →
      w.unzip bs = ZipOutcome.badZip →
      (get_listed_corp_codes w fs).2.2 = Except.ok [] ∧
        zipErrMsg ∈ (get_listed_corp_codes w fs).2.1)
  ∧ (∀ bs xml e, w.httpResult = Except.ok () → w.rawWrite = Except.ok bs →
      w.unzip bs = ZipOutcome.extracted xml → w.parseXml xml = Except.error e →
      (get_listed_corp_codes w fs).2.2 = Except.ok [] ∧
        parseErrMsg e ∈ (get_listed_corp_codes w fs).2.1)
  ∧ (∀ ex, w.httpResult = Except.ok () → w.rawWrite = Except.error ex →
      (get_listed_corp_codes w fs).2.2 = Except.error ex)
  ∧ (∀ bs, w.httpResult = Except.ok () → w.rawWrite = Except.ok bs →
      w.unzip bs = ZipOutcome.missingMember →
      (get_listed_corp_codes w fs).2.2 =
        Except.error (PyExn.keyError "CORPCODE.xml"))
  ∧ (∀ bs xml records m, w.httpResult = Except.ok () → w.rawWrite = Except.ok bs →
      w.unzip bs = ZipOutcome.extracted xml → w.parseXml xml = Except.ok records →
      w.saveWorld.makedirs "data/raw" = Except.error m →
      (get_listed_corp_codes w fs).2.2 = Except.error (PyExn.osError m)) := by
  refine ⟨?_, ?_, ?_, ?_, ?_, ?_⟩
  · intro e he
    constructor <;> simp [get_listed_corp_codes, he]
  · intro bs h1 h2 h3
    constructor <;> simp [get_listed_corp_codes, h1, h2, h3]
  · intro bs xml e h1 h2 h3 h4
    constructor <;> simp [get_listed_corp_codes, h1, h2, h3, h4]
  · intro ex h1 h2
    simp [get_listed_corp_codes, h1, h2]
  · intro bs h1 h2 h3
    simp [get_listed_corp_codes, h1, h2, h3]
  · intro bs xml records m h1 h2 h3 h4 h5
    simp [get_listed_corp_codes, h1, h2, h3, h4, save_at_corpCsv, h5]

/-- C1 witness: with an unreachable endpoint the fetcher returns the empty
table and prints the network diagnostic. -/
theorem fetcher_failure_handling_amended_witness :
    (get_listed_corp_codes wNetFail emptyFS).2.2 = Except.ok []
  ∧ fetchErrMsg "connection refused" ∈ (get_listed_corp_codes wNetFail emptyFS).2.1 :=
  (fetcher_failure_handling_amended wNetFail emptyFS).1 "connection refused" rfl

/-- C2: a directory record is retained by the fetcher iff its `stock_code`
is present with exactly 6 characters, the retained records appear in input
order (filter-then-map form), and the spec predicate is exactly
"present and length 6". -/
theorem ticker_filter_retains_iff_six_chars (records : List XmlCorpRecord) :
    filterCorps records = (records.filter specTickerKeep).map mkCorpRow
  ∧ ∀ c : XmlCorpRecord,
      specTickerKeep c = true ↔ ∃ s, c.stock_code = some s ∧ s.length = 6 := by
  constructor
  · simpa using filterCorps_foldl records []
  · intro c
    cases hsc : c.stock_code <;> simp [specTickerKeep, hsc]

/-- C8: running the fetcher a second time against the unchanged environment
(same response bytes, same zip and XML behaviour), starting from the
filesystem the first run left behind, returns the same table and leaves
byte-identical content at the output CSV path. -/
theorem fetcher_idempotent_second_run (w : FetchWorld) (fs : FS) :
    (get_listed_corp_codes w (get_listed_corp_codes w fs).1).2.2 =
      (get_listed_corp_codes w fs).2.2
  ∧ (get_listed_corp_codes w (get_listed_corp_codes w fs).1).1 corpCsvPath =
      (get_listed_corp_codes w fs).1 corpCsvPath := by
  cases hh : w.httpResult with
  | error e => simp [get_listed_corp_codes, hh]
  | ok u =>
    cases hr : w.rawWrite with
    | error ex => simp [get_listed_corp_codes, hh, hr]
    | ok bs =>
      cases hz : w.unzip bs with
      | badZip =>
        constructor
        · simp [get_listed_corp_codes, hh, hr, hz]
        · simp [get_listed_corp_codes, hh, hr, hz, FS.write, corpCsv_ne_zip]
      | missingMember =>
        constructor
        · simp [get_listed_corp_codes, hh, hr, hz]
        · simp [get_listed_corp_codes, hh, hr, hz, FS.write, corpCsv_ne_zip]
      | extracted xml =>
        cases hp : w.parseXml xml with
        | error e =>
          constructor
          · simp [get_listed_corp_codes, hh, hr, hz, hp]
          · simp [get_listed_corp_codes, hh, hr, hz, hp, FS.write, corpCsv_ne_zip,
              corpCsv_ne_xml]
        | ok records =>
          cases hm : w.saveWorld.makedirs "data/raw" with
          | error m =>
            constructor
            · simp [get_listed_corp_codes, hh, hr, hz, hp, save_at_corpCsv, hm]
            · simp [get_listed_corp_codes, hh, hr, hz, hp, save_at_corpCsv, hm,
                FS.write, corpCsv_ne_zip, corpCsv_ne_xml]
          | ok u2 =>
            cases ht : w.saveWorld.toCsv with
            | error e2 =>
              constructor
              · simp [get_listed_corp_codes, hh, hr, hz, hp, save_at_corpCsv, hm, ht]
              · simp [get_listed_corp_codes, hh, hr, hz, hp, save_at_corpCsv, hm, ht,
                  FS.write, corpCsv_ne_zip, corpCsv_ne_xml]
            | ok u3 =>
              constructor
              · simp [get_listed_corp_codes, hh, hr, hz, hp, save_at_corpCsv, hm, ht]
              · simp [get_listed_corp_codes, hh, hr, hz, hp, save_at_corpCsv, hm, ht,
                  FS.write]

/-- C6 counterexample: `save_df_to_csv` can raise past its boundary — on a
target path with no directory component the unguarded
`os.makedirs(os.path.dirname(...))` raises, with no diagnostic printed, so
"the call never raises" is false as stated. -/
theorem save_never_raises_cex :
    (save_df_to_csv okSaveWorld emptyFS (corpDF []) "out.csv" false).2.2 =
      Except.error (PyExn.fileNotFoundError fnfMsg)
  ∧ (save_df_to_csv okSaveWorld emptyFS (corpDF []) "out.csv" false).2.1 = [] :=
  ⟨rfl, rfl⟩

/-- C6 amended: when the parent-directory step succeeds (nonempty directory
component, `makedirs` succeeds), the utility writes the table rendered with
`index = false` (no synthetic row index) to the path; any failure of the
guarded write is caught, prints a diagnostic, and the call returns without
raising.  Directory-creation failures, being outside the guard, are not
covered (see the counterexample). -/
theorem save_guarded_write_behavior (w : SaveWorld) (fs : FS) (df : PandasDF)
    (p : String) (hd : pyDirname p ≠ "")
    (hm : w.makedirs (pyDirname p) = Except.ok ()) :
    (w.toCsv = Except.ok () →
        save_df_to_csv w fs df p false =
          (fs.write p (df.render false), [], Except.ok ()))
  ∧ ∀ e, w.toCsv = Except.error e →
      save_df_to_csv w fs df p false = (fs, [saveErrMsg p e], Except.ok ()) := by
  constructor
  · intro ht
    simp [save_df_to_csv, hd, hm, ht]
  · intro e ht
    simp [save_df_to_csv, hd, hm, ht]

/-- C6 witness: with a nested path and a writable world the utility writes
the index-free rendering of the table and raises nothing. -/
theorem save_guarded_write_behavior_witness :
    save_df_to_csv okSaveWorld emptyFS (corpDF []) "d/out.csv" false =
      (emptyFS.write "d/out.csv" ((corpDF []).render false), [], Except.ok ()) :=
  (save_guarded_write_behavior okSaveWorld emptyFS (corpDF []) "d/out.csv"
    (by decide) rfl).1 rfl

/-- C10: for a target path with no directory component (empty `dirname`),
`save_df_to_csv` raises — the `os.makedirs` call sits outside the `try`
block, so the exception propagates with no diagnostic printed, whatever the
table and the rest of the environment. -/
theorem save_makedirs_unguarded_raises (w : SaveWorld) (fs : FS) (df : PandasDF) :
    (save_df_to_csv w fs df "out.csv" false).2.2 =
      Except.error (PyExn.fileNotFoundError fnfMsg)
  ∧ (save_df_to_csv w fs df "out.csv" false).2.1 = []
  ∧ pyDirname "out.csv" = "" :=
  ⟨rfl, rfl, rfl⟩
